import Mathlib

/-!
Shallow embedding of the AltDSS-Go binding layer (src/altdss/dsslib.go) for
verification of its marshalling and lifecycle behaviour.

The binding layer wraps a native DSS engine through cgo.  The parts of engine
memory the binding reads and writes through the pointers held in
`DSSContextPtrs` are modelled as an explicit state record:

* the error-number cell `*errorNumberPtr` and the paired description string
  returned by `ctx_Error_Get_Description`;
* the GR ("global result") float64 scratch buffer `*DataPtr_PDouble` together
  with slot 0 of its count cell `(*CountPtr_PDouble)[0]` (the binding never
  reads the other three dimension slots).

Machine `float64` values are never computed with by the binding — they are only
copied — so the scalar carrier of the double buffer is an arbitrary type
parameter `F`; witnesses instantiate `F := Int`.  The count cell is an `int32`
the engine fills with a nonnegative element count; it is modelled as `Nat`
(a negative count would make `unsafe.Slice` panic in the Go source before any
of the behaviour specified here could be observed).  The engine buffer itself
is modelled as a total map `Nat → F` (a view of engine memory), which mirrors
the Go code's unchecked `unsafe.Slice` reads.
-/

set_option autoImplicit false

namespace AltDSS

/-- Host-visible error values produced by the binding layer, one constructor
per distinct `error` construction site in dsslib.go. -/
inductive GoError where
  /-- `fmt.Errorf("(DSSError#%d) %s", number, description)` built by
  `DSSContextPtrs.DSSError` from the error-number cell and the engine's
  description string. -/
  | dssError (number : Int) (description : String)
  /-- `errors.New("(DSSError) Got invalid data for a complex number.")`
  raised locally by `DSSContextPtrs.GetComplexSimpleGR`. -/
  | invalidComplexData
  /-- `errors.New("(DSSError) Could not create a new DSS Context")`
  raised by `IDSS.NewContext` when `ctx_New` yields a null handle. -/
  | newContextAllocFailed
deriving DecidableEq, Repr

/-- The message string carried by each error value, exactly as formatted by
the Go source. -/
def GoError.message : GoError → String
  | .dssError n d => "(DSSError#" ++ toString n ++ ") " ++ d
  | .invalidComplexData => "(DSSError) Got invalid data for a complex number."
  | .newContextAllocFailed => "(DSSError) Could not create a new DSS Context"

/-- The mutable engine cells one `DSSContextPtrs` value reaches: the error
number cell, its paired description, and the float64 GR scratch buffer with
slot 0 of its count cell.  `F` abstracts the 64-bit float slots, which the
binding only copies, never computes with. -/
structure DSSContextState (F : Type) where
  /-- Contents of the `int32` cell `*errorNumberPtr`. -/
  errorNumber : Int
  /-- String `ctx_Error_Get_Description` currently returns for this context. -/
  errorDescription : String
  /-- Slot 0 of the count cell `(*CountPtr_PDouble)[0]`: the element count the
  engine reports for the float64 GR buffer. -/
  countPDouble : Nat
  /-- The float64 GR buffer `*DataPtr_PDouble`, viewed as engine memory. -/
  dataPDouble : Nat → F

variable {F : Type}

/-- `DSSContextPtrs.DSSError` (dsslib.go): if the error-number cell is
nonzero, format an error embedding the number and the description read from
`ctx_Error_Get_Description`, write zero back to the cell, and return the
error; otherwise return `nil`.  Returns the Go `error` result together with
the context state after the call. -/
def DSSError (s : DSSContextState F) : Option GoError × DSSContextState F :=
  if s.errorNumber ≠ 0 then
    (some (GoError.dssError s.errorNumber s.errorDescription),
      { s with errorNumber := 0 })
  else
    (none, s)

/-- C1: `DSSError` returns no error iff the error-number cell is zero; when
the cell is nonzero it returns an error embedding both the numeric code and
the paired description, resets the cell to zero, and an immediately following
`DSSError` with no intervening engine call returns no error. -/
theorem DSSError_read_and_clear (s : DSSContextState F) :
    ((DSSError s).1 = none ↔ s.errorNumber = 0) ∧
    (s.errorNumber ≠ 0 →
      (DSSError s).1 = some (GoError.dssError s.errorNumber s.errorDescription) ∧
      (DSSError s).2.errorNumber = 0 ∧
      (DSSError (DSSError s).2).1 = none) := by
  constructor
  · constructor
    · intro h
      by_contra hne
      simp [DSSError, hne] at h
    · intro h
      simp [DSSError, h]
  · intro h
    refine ⟨by simp [DSSError, h], by simp [DSSError, h], ?_⟩
    simp [DSSError, h]

/-- A concrete context state with a pending engine fault, used to witness
the error-channel theorem. -/
def faultedState : DSSContextState Int where
  errorNumber := 7
  errorDescription := "boom"
  countPDouble := 0
  dataPDouble := fun _ => 0

/-- Witness for C1 at a concrete context state: error number 7 with
description "boom" yields the formatted error once and no error on the
immediately following check. -/
theorem DSSError_read_and_clear_witness :
    ((DSSError faultedState).1 = none ↔ faultedState.errorNumber = 0) ∧
    (faultedState.errorNumber ≠ 0 →
      (DSSError faultedState).1 =
        some (GoError.dssError faultedState.errorNumber
          faultedState.errorDescription) ∧
      (DSSError faultedState).2.errorNumber = 0 ∧
      (DSSError (DSSError faultedState).2).1 = none) :=
  DSSError_read_and_clear faultedState

/-- `DSSContextPtrs.GetFloat64ArrayGR` (dsslib.go): check the error channel,
read the reported element count, copy that many float64 slots out of the GR
buffer into a fresh host slice, and return the slice together with the error.
The copy happens unconditionally, error or not. -/
def GetFloat64ArrayGR (s : DSSContextState F) :
    (List F × Option GoError) × DSSContextState F :=
  let p := DSSError s
  let res_cnt := p.2.countPDouble
  let result := (List.range res_cnt).map p.2.dataPDouble
  ((result, p.1), p.2)

/-- `DSSContextPtrs.GetComplexArrayGR` (dsslib.go): check the error channel,
read the reported count, treat a count of 1 as 0, halve it, and copy that many
(real, imaginary) pairs out of the float64 GR buffer — the slice is
reinterpreted as `complex128`, so pair `i` covers double slots `2*i` and
`2*i+1`. -/
def GetComplexArrayGR (s : DSSContextState F) :
    (List (F × F) × Option GoError) × DSSContextState F :=
  let p := DSSError s
  let res_cnt := p.2.countPDouble
  let res_cnt := if res_cnt = 1 then 0 else res_cnt
  let res_cnt := res_cnt / 2
  let result := (List.range res_cnt).map
    (fun i => (p.2.dataPDouble (2 * i), p.2.dataPDouble (2 * i + 1)))
  ((result, p.1), p.2)

/-- `DSSContextPtrs.GetComplexSimpleGR` (dsslib.go): check the error channel;
if there is no channel error and the reported count differs from 2, return a
zero complex together with the locally raised "invalid data for a complex
number" error; otherwise return the first (real, imaginary) pair of the GR
buffer together with the channel error. -/
def GetComplexSimpleGR [Zero F] (s : DSSContextState F) :
    ((F × F) × Option GoError) × DSSContextState F :=
  let p := DSSError s
  let res_cnt := p.2.countPDouble
  if p.1 = none ∧ res_cnt ≠ 2 then
    (((0, 0), some GoError.invalidComplexData), p.2)
  else
    (((p.2.dataPDouble 0, p.2.dataPDouble 1), p.1), p.2)

/-- `DSSContextPtrs.GetStringArray` (dsslib.go): check the error channel, copy
`cnt[0]` native strings out of the engine-filled pointer array `data` into a
fresh host slice, dispose of the native array via `DSS_Dispose_PPAnsiChar`,
and return the slice together with the error.  `data` is modelled as the map
from slot index to the string it points at; the disposal is a pure memory
effect with no observable result. -/
def GetStringArray (s : DSSContextState F) (data : Nat → String) (cnt : Nat) :
    (List String × Option GoError) × DSSContextState F :=
  let p := DSSError s
  let result := (List.range cnt).map data
  ((result, p.1), p.2)

/-- `DSSError` never changes the scratch-buffer cells, only the error cell. -/
theorem DSSError_preserves_buffers (s : DSSContextState F) :
    (DSSError s).2.countPDouble = s.countPDouble ∧
    (DSSError s).2.dataPDouble = s.dataPDouble := by
  unfold DSSError
  split <;> exact ⟨rfl, rfl⟩

/-- C2: with count cell `n`, `GetComplexArrayGR` returns `n / 2` pairs, the
`i`-th pairing buffer slots `2*i` (real) and `2*i+1` (imaginary), except that
`n = 1` yields the empty list. -/
theorem GetComplexArrayGR_pairs (s : DSSContextState F) :
    (s.countPDouble = 1 → (GetComplexArrayGR s).1.1 = []) ∧
    (s.countPDouble ≠ 1 →
      (GetComplexArrayGR s).1.1.length = s.countPDouble / 2 ∧
      ∀ i : Nat, ∀ hi : i < (GetComplexArrayGR s).1.1.length,
        (GetComplexArrayGR s).1.1.get ⟨i, hi⟩ =
          (s.dataPDouble (2 * i), s.dataPDouble (2 * i + 1))) := by
  have hbuf := DSSError_preserves_buffers s
  constructor
  · intro h1
    simp [GetComplexArrayGR, hbuf.1, h1]
  · intro hne
    constructor
    · simp [GetComplexArrayGR, hbuf.1, hne]
    · intro i hi
      simp only [GetComplexArrayGR, hbuf.1, hbuf.2, hne, if_neg hne] at hi ⊢
      simp [List.get_eq_getElem, hbuf.2]

/-- A concrete context state whose float64 count cell is 1, the engine's
"scalar empty" convention for complex arrays. -/
def scalarEmptyState : DSSContextState Int where
  errorNumber := 0
  errorDescription := ""
  countPDouble := 1
  dataPDouble := fun i => (i : Int) + 1

/-- A concrete context state with four float64 values in the GR buffer. -/
def fourSlotState : DSSContextState Int where
  errorNumber := 0
  errorDescription := ""
  countPDouble := 4
  dataPDouble := fun i => (i : Int) + 1

/-- Witness for C2 at two concrete states: a count of 1 yields the empty
list, and a count of 4 yields two pairs, the first pairing slots 0 and 1. -/
theorem GetComplexArrayGR_pairs_witness :
    ((GetComplexArrayGR scalarEmptyState).1.1 = []) ∧
    ((GetComplexArrayGR fourSlotState).1.1.length = fourSlotState.countPDouble / 2 ∧
      ∀ i : Nat, ∀ hi : i < (GetComplexArrayGR fourSlotState).1.1.length,
        (GetComplexArrayGR fourSlotState).1.1.get ⟨i, hi⟩ =
          (fourSlotState.dataPDouble (2 * i), fourSlotState.dataPDouble (2 * i + 1))) :=
  ⟨(GetComplexArrayGR_pairs scalarEmptyState).1 (by decide),
   (GetComplexArrayGR_pairs fourSlotState).2 (by decide)⟩

/-- C10: for an odd count `n > 1`, `GetComplexArrayGR` returns `n / 2`
(floor) pairs — the trailing unpaired double is silently dropped — and the
error result is exactly the error-channel check's, never the locally raised
complex marshalling fault. -/
theorem GetComplexArrayGR_odd_count (s : DSSContextState F)
    (hodd : s.countPDouble % 2 = 1) (h1 : 1 < s.countPDouble) :
    (GetComplexArrayGR s).1.1.length = s.countPDouble / 2 ∧
    (GetComplexArrayGR s).1.2 = (DSSError s).1 ∧
    (GetComplexArrayGR s).1.2 ≠ some GoError.invalidComplexData := by
  have hne : s.countPDouble ≠ 1 := by omega
  have hbuf := DSSError_preserves_buffers s
  refine ⟨by simp [GetComplexArrayGR, hbuf.1, hne], rfl, ?_⟩
  unfold GetComplexArrayGR DSSError
  split <;> simp

/-- A concrete context state with an odd count of 5 in the float64 count
cell. -/
def oddCountState : DSSContextState Int where
  errorNumber := 0
  errorDescription := ""
  countPDouble := 5
  dataPDouble := fun i => (i : Int) + 1

/-- Witness for C10 at a concrete state with count 5: two pairs come back and
no marshalling fault is raised. -/
theorem GetComplexArrayGR_odd_count_witness :
    oddCountState.countPDouble % 2 = 1 ∧ 1 < oddCountState.countPDouble ∧
    ((GetComplexArrayGR oddCountState).1.1.length = oddCountState.countPDouble / 2 ∧
      (GetComplexArrayGR oddCountState).1.2 = (DSSError oddCountState).1 ∧
      (GetComplexArrayGR oddCountState).1.2 ≠ some GoError.invalidComplexData) :=
  ⟨by decide, by decide,
    GetComplexArrayGR_odd_count oddCountState (by decide) (by decide)⟩

/-- A concrete context state with a pending engine fault and a float64 count
of 3, so both a channel fault and a complex-count mismatch are present. -/
def mismatchFaultState : DSSContextState Int where
  errorNumber := 7
  errorDescription := "boom"
  countPDouble := 3
  dataPDouble := fun i => (i : Int) + 1

/-- Counterexample to C3 as stated: at a state whose count cell is 3 (≠ 2)
but whose error cell is nonzero, `GetComplexSimpleGR` does not return the
"invalid data for a complex number" fault with a zero value — it returns the
pending channel fault together with the buffer's first pair. -/
theorem GetComplexSimpleGR_claim_counterexample :
    mismatchFaultState.countPDouble ≠ 2 ∧
    (GetComplexSimpleGR mismatchFaultState).1 ≠
      ((0, 0), some GoError.invalidComplexData) ∧
    (GetComplexSimpleGR mismatchFaultState).1 =
      ((1, 2), some (GoError.dssError 7 "boom")) := by
  refine ⟨by decide, ?_, ?_⟩ <;> decide

/-- C3 amended: when the error channel reports no pending fault, a count
other than 2 makes `GetComplexSimpleGR` return the locally raised "invalid
data for a complex number" error with a zero value; when the error cell is
nonzero, the channel fault takes precedence and the buffer's first pair is
returned alongside it. -/
theorem GetComplexSimpleGR_mismatch [Zero F] (s : DSSContextState F) :
    (s.errorNumber = 0 → s.countPDouble ≠ 2 →
      (GetComplexSimpleGR s).1 = ((0, 0), some GoError.invalidComplexData)) ∧
    (s.errorNumber ≠ 0 →
      (GetComplexSimpleGR s).1 = ((s.dataPDouble 0, s.dataPDouble 1),
        some (GoError.dssError s.errorNumber s.errorDescription))) := by
  constructor
  · intro h0 h2
    simp [GetComplexSimpleGR, DSSError, h0, h2]
  · intro h
    simp [GetComplexSimpleGR, DSSError, h]

/-- A concrete context state with no pending fault and a float64 count of 3,
a pure complex-count mismatch. -/
def mismatchCleanState : DSSContextState Int where
  errorNumber := 0
  errorDescription := ""
  countPDouble := 3
  dataPDouble := fun i => (i : Int) + 1

/-- Witness for the amended C3 at two concrete states: a clean state with
count 3 yields the marshalling fault and zero, and a faulted state with count
3 yields the channel fault and the buffer's first pair. -/
theorem GetComplexSimpleGR_mismatch_witness :
    (mismatchCleanState.errorNumber = 0 ∧ mismatchCleanState.countPDouble ≠ 2 ∧
      (GetComplexSimpleGR mismatchCleanState).1 =
        ((0, 0), some GoError.invalidComplexData)) ∧
    (mismatchFaultState.errorNumber ≠ 0 ∧
      (GetComplexSimpleGR mismatchFaultState).1 =
        ((mismatchFaultState.dataPDouble 0, mismatchFaultState.dataPDouble 1),
          some (GoError.dssError mismatchFaultState.errorNumber
            mismatchFaultState.errorDescription))) :=
  ⟨⟨by decide, by decide,
    (GetComplexSimpleGR_mismatch mismatchCleanState).1 (by decide) (by decide)⟩,
   ⟨by decide, (GetComplexSimpleGR_mismatch mismatchFaultState).2 (by decide)⟩⟩

/-- A concrete context state with a pending engine fault and one float64
value reported in the GR buffer. -/
def failedGetState : DSSContextState Int where
  errorNumber := 9
  errorDescription := "bad index"
  countPDouble := 1
  dataPDouble := fun i => (i : Int) + 1

/-- Counterexample to C6 as stated: at a state whose error cell is nonzero
and whose count cell is 1, `GetFloat64ArrayGR` returns a non-empty error but
NOT the empty slice — it returns the one-element copy of the scratch
buffer. -/
theorem failing_getter_claim_counterexample :
    (GetFloat64ArrayGR failedGetState).1.2 ≠ none ∧
    (GetFloat64ArrayGR failedGetState).1.1 ≠ [] ∧
    (GetFloat64ArrayGR failedGetState).1.1 = [1] := by
  refine ⟨?_, ?_, ?_⟩ <;> decide

/-- C6 amended: a failing getter returns a non-empty error, but the value
alongside it is the unconditional copy-out of whatever the count cell and
scratch buffer currently hold — it is empty exactly when the count cell is
zero, not regardless of the buffers. -/
theorem failing_getter_returns_buffer_copy (s : DSSContextState F)
    (h : s.errorNumber ≠ 0) :
    (GetFloat64ArrayGR s).1.2 =
      some (GoError.dssError s.errorNumber s.errorDescription) ∧
    (GetFloat64ArrayGR s).1.1 = (List.range s.countPDouble).map s.dataPDouble ∧
    ((GetFloat64ArrayGR s).1.1 = [] ↔ s.countPDouble = 0) ∧
    ∀ (data : Nat → String) (cnt : Nat),
      (GetStringArray s data cnt).1.2 =
        some (GoError.dssError s.errorNumber s.errorDescription) ∧
      (GetStringArray s data cnt).1.1 = (List.range cnt).map data := by
  refine ⟨by simp [GetFloat64ArrayGR, DSSError, h], ?_, ?_, ?_⟩
  · simp [GetFloat64ArrayGR, DSSError, h]
  · simp [GetFloat64ArrayGR, DSSError, h, List.range_eq_nil]
  · intro data cnt
    exact ⟨by simp [GetStringArray, DSSError, h], by simp [GetStringArray]⟩

/-- Witness for the amended C6 at a concrete faulted state: the float64
getter returns the channel fault with the one-element buffer copy, and the
string-array getter returns the channel fault with the two strings copied
out. -/
theorem failing_getter_returns_buffer_copy_witness :
    failedGetState.errorNumber ≠ 0 ∧
    (GetFloat64ArrayGR failedGetState).1.2 =
      some (GoError.dssError failedGetState.errorNumber
        failedGetState.errorDescription) ∧
    (GetFloat64ArrayGR failedGetState).1.1 =
      (List.range failedGetState.countPDouble).map failedGetState.dataPDouble ∧
    ((GetFloat64ArrayGR failedGetState).1.1 = [] ↔
      failedGetState.countPDouble = 0) ∧
    ((GetStringArray failedGetState (fun i => toString i) 2).1.2 =
      some (GoError.dssError failedGetState.errorNumber
        failedGetState.errorDescription) ∧
     (GetStringArray failedGetState (fun i => toString i) 2).1.1 =
      (List.range 2).map (fun i => toString i)) :=
  have T := failing_getter_returns_buffer_copy failedGetState (by decide)
  ⟨by decide, T.1, T.2.1, T.2.2.1, T.2.2.2 (fun i => toString i) 2⟩

/-- Size in bytes of a C object pointer (`*C.char`) on the 64-bit targets
this cgo binding builds for. -/
def pointerSize : Nat := 8

/-- Bytes requested from `C.malloc` by `DSSContextPtrs.PrepareStringArray`:
the source passes `(C.size_t)(len(value))` — the element count of the Go
slice used directly as a byte count. -/
def prepareStringArrayAllocBytes (value : List String) : Nat :=
  value.length

/-- Extent in bytes of the pointer stores `cdata[i] = C.CString(value[i])`
performed by `PrepareStringArray`: `len(value)` consecutive `*C.char`
slots. -/
def prepareStringArrayWriteBytes (value : List String) : Nat :=
  pointerSize * value.length

/-- C5 evaluated at the failing input `["a"]`: `PrepareStringArray` requests
1 byte from `C.malloc` but stores one 8-byte pointer, so the write extent
exceeds the allocation — the allocation does not have room for `len(value)`
string pointers as the spec requires. -/
theorem prepareStringArray_alloc_too_small :
    prepareStringArrayAllocBytes ["a"] = 1 ∧
    prepareStringArrayWriteBytes ["a"] = 8 ∧
    prepareStringArrayAllocBytes ["a"] < prepareStringArrayWriteBytes ["a"] := by
  refine ⟨rfl, rfl, ?_⟩
  decide

/-- One native-memory or engine event performed by a string-array setter, in
program order. -/
inductive MarshalEvent where
  /-- The `C.malloc` of the outer pointer array in `PrepareStringArray`. -/
  | allocArray
  /-- One `C.CString(value[i])` duplication in `PrepareStringArray`. -/
  | allocString (s : String)
  /-- The native `ctx_*_Set_*` engine call. -/
  | engineCall
  /-- One `C.free(cdata[i])` of a duplicated string in `FreeStringArray`. -/
  | freeString
  /-- The final `C.free(data)` of the outer array in `FreeStringArray`. -/
  | freeArray
deriving DecidableEq, Repr

/-- Recognizes per-string duplications. -/
def MarshalEvent.isAllocString : MarshalEvent → Bool
  | .allocString _ => true
  | _ => false

/-- Recognizes per-string frees. -/
def MarshalEvent.isFreeString : MarshalEvent → Bool
  | .freeString => true
  | _ => false

/-- Recognizes the outer-array allocation. -/
def MarshalEvent.isAllocArray : MarshalEvent → Bool
  | .allocArray => true
  | _ => false

/-- Recognizes the outer-array free. -/
def MarshalEvent.isFreeArray : MarshalEvent → Bool
  | .freeArray => true
  | _ => false

/-- Event trace of `DSSContextPtrs.PrepareStringArray`: one outer-array
allocation followed by one string duplication per element of `value`. -/
def PrepareStringArrayTrace (value : List String) : List MarshalEvent :=
  MarshalEvent.allocArray :: value.map MarshalEvent.allocString

/-- Event trace of `DSSContextPtrs.FreeStringArray data count`: `count`
per-string frees followed by the free of the outer array. -/
def FreeStringArrayTrace (count : Nat) : List MarshalEvent :=
  List.replicate count MarshalEvent.freeString ++ [MarshalEvent.freeArray]

/-- `IFuses.Set_State` (dsslib.go): prepare the native string array, invoke
`ctx_Fuses_Set_State` — modelled as an arbitrary engine transition `eng` on
the context cells — and return `ctx.DSSError()`; the deferred
`FreeStringArray(value_c, len(value))` runs after the return value is
computed, on every exit path.  Returns the Go (error, state) result paired
with the native-memory event trace. -/
def IFuses.Set_State (eng : DSSContextState F → DSSContextState F)
    (value : List String) (s : DSSContextState F) :
    (Option GoError × DSSContextState F) × List MarshalEvent :=
  let p := DSSError (eng s)
  ((p.1, p.2),
    PrepareStringArrayTrace value ++ [MarshalEvent.engineCall] ++
      FreeStringArrayTrace value.length)

/-- `ICktElement.Set_BusNames` (dsslib.go): identical shape to
`IFuses.Set_State` with `ctx_CktElement_Set_BusNames` as the engine call. -/
def ICktElement.Set_BusNames (eng : DSSContextState F → DSSContextState F)
    (value : List String) (s : DSSContextState F) :
    (Option GoError × DSSContextState F) × List MarshalEvent :=
  let p := DSSError (eng s)
  ((p.1, p.2),
    PrepareStringArrayTrace value ++ [MarshalEvent.engineCall] ++
      FreeStringArrayTrace value.length)

/-- In a setter trace, string duplications are counted by the length of the
prepared list. -/
theorem countP_allocString_map (value : List String) :
    (value.map MarshalEvent.allocString).countP MarshalEvent.isAllocString
      = value.length := by
  induction value with
  | nil => rfl
  | cons a l ih => simp [List.countP_cons, MarshalEvent.isAllocString, ih]

/-- `List.countP` of a constant-false predicate over replicated frees is
zero, and of the matching predicate is the replication count. -/
theorem countP_replicate (n : Nat) (a : MarshalEvent) (p : MarshalEvent → Bool) :
    (List.replicate n a).countP p = if p a then n else 0 := by
  induction n with
  | zero => simp
  | succ n ih => simp [List.replicate_succ, List.countP_cons, ih]; split <;> simp

/-- C8: for every engine outcome, a string-array setter's trace performs
exactly `len(value)` string duplications and exactly `len(value)` string
frees, and exactly one outer-array allocation and one outer-array free; the
trace is the same on every exit path (it does not depend on the engine
transition or on the pre-state, hence is identical on error and success
paths), and `Set_BusNames` marshals exactly like `Set_State`. -/
theorem stringArraySetter_releases_exactly_once
    (eng eng' : DSSContextState F → DSSContextState F)
    (value : List String) (s s' : DSSContextState F) :
    ((IFuses.Set_State eng value s).2.countP MarshalEvent.isAllocString
      = value.length) ∧
    ((IFuses.Set_State eng value s).2.countP MarshalEvent.isFreeString
      = value.length) ∧
    ((IFuses.Set_State eng value s).2.countP MarshalEvent.isAllocArray = 1) ∧
    ((IFuses.Set_State eng value s).2.countP MarshalEvent.isFreeArray = 1) ∧
    ((IFuses.Set_State eng value s).2 = (IFuses.Set_State eng' value s').2) ∧
    ((ICktElement.Set_BusNames eng value s).2 = (IFuses.Set_State eng value s).2) := by
  refine ⟨?_, ?_, ?_, ?_, rfl, rfl⟩ <;>
    simp [IFuses.Set_State, PrepareStringArrayTrace, FreeStringArrayTrace,
      List.countP_append, List.countP_cons, countP_allocString_map,
      countP_replicate, MarshalEvent.isAllocString, MarshalEvent.isFreeString,
      MarshalEvent.isAllocArray, MarshalEvent.isFreeArray]

/-- The per-handle pointer set `DSSContextPtrs.Init` stores after querying
the engine: the error-number cell from `ctx_Error_Get_NumberPtr` and the
eight GR buffer/count pointers from `ctx_DSS_GetGRPointers`.  Pointers are
modelled as abstract identifiers. -/
structure CtxPointers where
  errorNumberPtr : Nat
  dataPtrPDouble : Nat
  dataPtrPInteger : Nat
  dataPtrPByte : Nat
  dataPtrPPChar : Nat
  countPtrPDouble : Nat
  countPtrPInteger : Nat
  countPtrPByte : Nat
  countPtrPPChar : Nat
deriving DecidableEq, Repr

/-- The engine entry points the lifecycle code consumes, as an abstract
interface: `ctx_New` (whose result for the next call is `ctxNew`, `none`
standing for a NULL handle), `ctx_Get_Prime`, and the per-handle pointer
query performed by `DSSContextPtrs.Init`. -/
structure EngineIface where
  /-- Handle `ctx_New()` returns; `none` models a NULL pointer. -/
  ctxNew : Option Nat
  /-- Handle `ctx_Get_Prime()` returns: the default (prime) instance. -/
  primeCtx : Nat
  /-- Pointer set the engine reports for a given context handle via
  `ctx_Error_Get_NumberPtr` and `ctx_DSS_GetGRPointers`. -/
  grPointers : Nat → CtxPointers

/-- The host-side `IDSS` facade after `Init`: the wrapped context handle and
the pointer set its `DSSContextPtrs` holds (every entity proxy is handed this
same `ctx` by `InitCommon`). -/
structure IDSS where
  ctxPtr : Nat
  ctx : CtxPointers
deriving DecidableEq, Repr

/-- `DSSContextPtrs.Init` (dsslib.go): store the handle and populate the
error-number and GR pointers by querying the engine for that handle. -/
def DSSContextPtrs.Init (eng : EngineIface) (ctxPtr : Nat) : CtxPointers :=
  eng.grPointers ctxPtr

/-- `IDSS.Init` (dsslib.go): a nil handle is replaced by the prime instance
`ctx_Get_Prime()` (started via `ctx_DSS_Start`); then a fresh
`DSSContextPtrs` is initialized for the resulting handle and every proxy is
bound to it. -/
def IDSS.Init (eng : EngineIface) (ctxPtr : Option Nat) : IDSS :=
  let p := match ctxPtr with
    | none => eng.primeCtx
    | some q => q
  { ctxPtr := p, ctx := DSSContextPtrs.Init eng p }

/-- `IDSS.NewContext` (dsslib.go): call `ctx_New`, build and `Init` a fresh
`IDSS` on the returned handle, and return it — paired with the allocation
error exactly when the handle was NULL. -/
def IDSS.NewContext (eng : EngineIface) : IDSS × Option GoError :=
  let newCtxPtr := eng.ctxNew
  let dssNew := IDSS.Init eng newCtxPtr
  match newCtxPtr with
  | none => (dssNew, some GoError.newContextAllocFailed)
  | some _ => (dssNew, none)

/-- C7: `NewContext` returns the allocation error iff the engine returned a
NULL handle; on a non-NULL handle `h` it returns, with no error, a facade
wrapping `h` whose pointer set was re-queried from the engine for `h` — its
own scratch-buffer pointers and error cell, hence independent of any parent
context whose pointer set the engine reports differently. -/
theorem NewContext_alloc_error_iff (eng : EngineIface) :
    ((IDSS.NewContext eng).2 ≠ none ↔ eng.ctxNew = none) ∧
    (∀ h : Nat, eng.ctxNew = some h →
      IDSS.NewContext eng =
        ({ ctxPtr := h, ctx := eng.grPointers h }, none)) := by
  constructor
  · cases hc : eng.ctxNew <;> simp [IDSS.NewContext, hc]
  · intro h hc
    simp [IDSS.NewContext, hc, IDSS.Init, DSSContextPtrs.Init]

/-- A concrete engine interface whose next `ctx_New` yields handle 5 and
which reports a distinct pointer set for every handle. -/
def engineFresh : EngineIface where
  ctxNew := some 5
  primeCtx := 0
  grPointers := fun h =>
    { errorNumberPtr := 9 * h, dataPtrPDouble := 9 * h + 1,
      dataPtrPInteger := 9 * h + 2, dataPtrPByte := 9 * h + 3,
      dataPtrPPChar := 9 * h + 4, countPtrPDouble := 9 * h + 5,
      countPtrPInteger := 9 * h + 6, countPtrPByte := 9 * h + 7,
      countPtrPPChar := 9 * h + 8 }

/-- Witness for C7 at a concrete engine: handle 5 comes back wrapped with
handle-5 pointers and no error, and the error-iff-NULL equivalence holds. -/
theorem NewContext_alloc_error_iff_witness :
    ((IDSS.NewContext engineFresh).2 ≠ none ↔ engineFresh.ctxNew = none) ∧
    (engineFresh.ctxNew = some 5 ∧
      IDSS.NewContext engineFresh =
        ({ ctxPtr := 5, ctx := engineFresh.grPointers 5 }, none)) :=
  ⟨(NewContext_alloc_error_iff engineFresh).1,
   rfl, (NewContext_alloc_error_iff engineFresh).2 5 rfl⟩

/-- A concrete engine interface whose next `ctx_New` yields a NULL handle. -/
def engineExhausted : EngineIface where
  ctxNew := none
  primeCtx := 0
  grPointers := fun h =>
    { errorNumberPtr := 9 * h, dataPtrPDouble := 9 * h + 1,
      dataPtrPInteger := 9 * h + 2, dataPtrPByte := 9 * h + 3,
      dataPtrPPChar := 9 * h + 4, countPtrPDouble := 9 * h + 5,
      countPtrPInteger := 9 * h + 6, countPtrPByte := 9 * h + 7,
      countPtrPPChar := 9 * h + 8 }

/-- C9: when `ctx_New` yields a NULL handle, `NewContext` still returns a
fully initialized facade — `Init` substituted the prime instance for the nil
handle — so a caller ignoring the returned allocation error silently operates
on the shared prime context. -/
theorem NewContext_null_handle_wraps_prime (eng : EngineIface)
    (h : eng.ctxNew = none) :
    IDSS.NewContext eng =
      (IDSS.Init eng none, some GoError.newContextAllocFailed) ∧
    (IDSS.NewContext eng).1.ctxPtr = eng.primeCtx ∧
    (IDSS.NewContext eng).1.ctx = eng.grPointers eng.primeCtx := by
  refine ⟨?_, ?_, ?_⟩ <;>
    simp [IDSS.NewContext, h, IDSS.Init, DSSContextPtrs.Init]

/-- Witness for C9 at a concrete engine returning a NULL handle: the facade
wraps the prime handle 0 with the prime pointer set, alongside the allocation
error. -/
theorem NewContext_null_handle_wraps_prime_witness :
    engineExhausted.ctxNew = none ∧
    (IDSS.NewContext engineExhausted =
      (IDSS.Init engineExhausted none, some GoError.newContextAllocFailed) ∧
    (IDSS.NewContext engineExhausted).1.ctxPtr = engineExhausted.primeCtx ∧
    (IDSS.NewContext engineExhausted).1.ctx =
      engineExhausted.grPointers engineExhausted.primeCtx) :=
  ⟨rfl, NewContext_null_handle_wraps_prime engineExhausted rfl⟩

/-- Engine-side instance bookkeeping: the handles of the currently live
engine instances, in allocation order. -/
structure EngineInstances where
  live : List Nat
deriving DecidableEq, Repr

/-- `ctx_New`'s engine-side allocation effect alongside `IDSS.NewContext`:
when the engine yields handle `h`, `h` becomes a live engine instance; on a
NULL handle nothing is allocated.  Returns `NewContext`'s result paired with
the updated instance table. -/
def IDSS.NewContextAlloc (eng : EngineIface) (insts : EngineInstances) :
    (IDSS × Option GoError) × EngineInstances :=
  (IDSS.NewContext eng,
    match eng.ctxNew with
    | none => insts
    | some h => { live := h :: insts.live })

/-- Modelled from the spec: `IDSS.Dispose` is not present under src/ — only
the `ctx_disposal` example calls it — so it is modelled from spec §4.1,
"`Dispose()`: releases the engine-side instance": the context's handle is
removed from the live engine instances. -/
def IDSS.Dispose (dss : IDSS) (insts : EngineInstances) : EngineInstances :=
  { live := insts.live.erase dss.ctxPtr }

/-- C4: every context obtained from a successful `NewContext` can have its
engine-side instance reclaimed by `Dispose`: disposing the returned facade
removes exactly the freshly allocated instance, restoring the instance table
that existed before the `NewContext` call. -/
theorem NewContext_then_Dispose_reclaims (eng : EngineIface)
    (insts : EngineInstances) (h : Nat) (hc : eng.ctxNew = some h) :
    IDSS.Dispose (IDSS.NewContextAlloc eng insts).1.1
      (IDSS.NewContextAlloc eng insts).2 = insts := by
  have hdss : (IDSS.NewContextAlloc eng insts).1.1.ctxPtr = h := by
    simp [IDSS.NewContextAlloc, IDSS.NewContext, hc, IDSS.Init,
      DSSContextPtrs.Init]
  have halloc : (IDSS.NewContextAlloc eng insts).2 =
      { live := h :: insts.live } := by
    simp [IDSS.NewContextAlloc, hc]
  simp [IDSS.Dispose, hdss, halloc]

/-- Witness for C4 at a concrete engine and instance table: creating context
5 on top of live instance 0 and disposing it restores the table `[0]`. -/
theorem NewContext_then_Dispose_reclaims_witness :
    engineFresh.ctxNew = some 5 ∧
    IDSS.Dispose
      (IDSS.NewContextAlloc engineFresh { live := [0] }).1.1
      (IDSS.NewContextAlloc engineFresh { live := [0] }).2 = { live := [0] } :=
  ⟨rfl, NewContext_then_Dispose_reclaims engineFresh { live := [0] } 5 rfl⟩

end AltDSS
